import Mathlib

/-!
Shallow embedding of the contact-manager program in `new-hw-3.py`.

The program is a single Python module: value classes `Field`, `Name`, `Phone`,
`Birthday`; a `Record` class (name, ordered phone list, optional birthday);
an `AddressBook` (a `UserDict` keyed by lowercased name); command handlers
wrapped by the `input_error` decorator; and a REPL dispatch loop.

Modelling decisions, each keyed to the Python source:
* `Field` defines no `__eq__`, so Python's `==` on `Phone` objects falls back
  to object identity.  A `Phone` is therefore embedded as a pair of an object
  identity `oid : Nat` and its string `value`; handler-level code threads an
  allocation counter so that freshly constructed `Phone` objects carry fresh
  identities, exactly as CPython allocates fresh objects.
* `str.isdigit` accepts every Unicode character of numeric type Digit or
  Decimal, not only ASCII `0`-`9`.  `pyIsDigitChar` models the fragment of
  that table relevant here: ASCII digits, the superscript digits, and a few
  standard non-ASCII decimal-digit blocks.
* `datetime.strptime(s, "%d.%m.%Y")` matches (per CPython `_strptime`) the
  whole string against `(3[01]|[12]\d|0[1-9]|[1-9]) dot (1[0-2]|0[1-9]|[1-9])
  dot (\d\d\d\d)`, converts each group with `int()`, and builds a `datetime`,
  which checks that the day exists in the month and that the year is at
  least 1.  The digit literals and classes written out in the pattern
  (`3`, `[01]`, `[12]`, `0`, `[1-9]`, `1`, `[0-2]`) are ASCII, but `\d`
  matches any Unicode decimal digit and `int()` likewise accepts them, so
  the second character of a 10-29 day and all four year characters may be
  non-ASCII decimal digits.  Each alternative consumes one or two characters
  and must be followed by the literal dot (or the end), and a digit is never
  a dot, so matching the anchored pattern is equivalent to splitting the
  string at the dots and matching each field exactly, which is how
  `parseBirthdayDate` is written.
* `str.lower` is modelled on the ASCII range (uppercase letters map to
  lowercase, everything else is fixed).
* Mutation is modelled by explicit state passing: in-place record mutation
  becomes writing the updated record back at its key, and a handler returns
  its printed string together with the resulting book.
-/

namespace HW3

/-- True on the ASCII decimal digits `0`-`9`. -/
def isAsciiDigit (c : Char) : Bool :=
  48 ≤ c.toNat && c.toNat ≤ 57

/-- Models CPython `str.isdigit` on one character: true on characters of
Unicode numeric type Digit or Decimal.  Beyond the ASCII digits this lists
the superscript digits and a few standard decimal-digit blocks (Arabic-Indic,
extended Arabic-Indic, Devanagari, fullwidth); the rest of the Unicode table
is elided, as only these occur in this development. -/
def pyIsDigitChar (c : Char) : Bool :=
  isAsciiDigit c ||
  c == '¹' || c == '²' || c == '³' ||
  (0x660 ≤ c.toNat && c.toNat ≤ 0x669) ||
  (0x6F0 ≤ c.toNat && c.toNat ≤ 0x6F9) ||
  (0x966 ≤ c.toNat && c.toNat ≤ 0x96F) ||
  (0xFF10 ≤ c.toNat && c.toNat ≤ 0xFF19)

/-- Models CPython `str.isdigit` on a string: false on the empty string,
otherwise true iff every character is a digit. -/
def pyIsDigit (s : String) : Bool :=
  !s.data.isEmpty && s.data.all pyIsDigitChar

/-- Models the Unicode decimal-digit class (category Nd), as matched by
CPython `re`'s `\d` on strings and converted by `int()`.  Superscript digits
are of numeric type Digit, not Decimal, so they are accepted by
`str.isdigit` but not here.  Beyond the ASCII digits this lists the same
standard decimal-digit blocks as `pyIsDigitChar` (Arabic-Indic, extended
Arabic-Indic, Devanagari, fullwidth); the rest of the Unicode table is
elided, as only these occur in this development. -/
def isPyDecimalDigit (c : Char) : Bool :=
  isAsciiDigit c ||
  (0x660 ≤ c.toNat && c.toNat ≤ 0x669) ||
  (0x6F0 ≤ c.toNat && c.toNat ≤ 0x6F9) ||
  (0x966 ≤ c.toNat && c.toNat ≤ 0x96F) ||
  (0xFF10 ≤ c.toNat && c.toNat ≤ 0xFF19)

/-- The decimal value of a Unicode decimal-digit character (the blocks
listed in `isPyDecimalDigit`); `0` elsewhere. -/
def pyDigitVal (c : Char) : Nat :=
  if 48 ≤ c.toNat ∧ c.toNat ≤ 57 then c.toNat - 48
  else if 0x660 ≤ c.toNat ∧ c.toNat ≤ 0x669 then c.toNat - 0x660
  else if 0x6F0 ≤ c.toNat ∧ c.toNat ≤ 0x6F9 then c.toNat - 0x6F0
  else if 0x966 ≤ c.toNat ∧ c.toNat ≤ 0x96F then c.toNat - 0x966
  else if 0xFF10 ≤ c.toNat ∧ c.toNat ≤ 0xFF19 then c.toNat - 0xFF10
  else 0

/-- Models CPython `int()` on a matched group of decimal-digit characters
(Unicode decimal digits allowed, e.g. `int` of 1 followed by Arabic-Indic
five is 15). -/
def pyDigitsVal (cs : List Char) : Nat :=
  cs.foldl (fun a c => a * 10 + pyDigitVal c) 0

/-- Models CPython `str.lower` on one character (ASCII range). -/
def pyLowerChar (c : Char) : Char :=
  if 65 ≤ c.toNat ∧ c.toNat ≤ 90 then Char.ofNat (c.toNat + 32) else c

/-- Models CPython `str.lower` (ASCII range), characterwise over the
string's characters. -/
def pyLower (s : String) : String :=
  ⟨s.data.map pyLowerChar⟩

/-- A calendar date, as produced by `datetime.date`. -/
structure Date where
  year : Nat
  month : Nat
  day : Nat
deriving DecidableEq, Repr

/-- Gregorian leap-year rule, as in `datetime`. -/
def isLeapYear (y : Nat) : Bool :=
  y % 4 == 0 && (y % 100 != 0 || y % 400 == 0)

/-- Number of days in month `m` of year `y` (months `1`-`12`). -/
def daysInMonth (m y : Nat) : Nat :=
  if m == 2 then (if isLeapYear y then 29 else 28)
  else if m == 4 || m == 6 || m == 9 || m == 11 then 30
  else 31

/-- `datetime.date` ordering: lexicographic on (year, month, day). -/
def Date.le (a b : Date) : Bool :=
  a.year < b.year ||
  (a.year == b.year &&
    (a.month < b.month || (a.month == b.month && a.day ≤ b.day)))

/-- The calendar day after `x`. -/
def nextDay (x : Date) : Date :=
  if x.day < daysInMonth x.month x.year then ⟨x.year, x.month, x.day + 1⟩
  else if x.month < 12 then ⟨x.year, x.month + 1, 1⟩
  else ⟨x.year + 1, 1, 1⟩

/-- `x + timedelta(days := n)` on dates. -/
def addDays : Nat → Date → Date
  | 0, x => x
  | n + 1, x => addDays n (nextDay x)

/-- Split a character list at every `'.'` (the dot-separated fields of the
`%d.%m.%Y` pattern). -/
def splitDots : List Char → List (List Char)
  | [] => [[]]
  | c :: rest =>
    if c = '.' then [] :: splitDots rest
    else
      match splitDots rest with
      | [] => [[c]]
      | p :: ps => (c :: p) :: ps

/-- The day field of `%d.%m.%Y`: CPython `_strptime`'s alternation
`3[01]|[12]\d|0[1-9]|[1-9]`, matched exactly against the dot-separated
segment.  `3`, `[01]`, `[12]`, `0` and `[1-9]` are ASCII, while `\d` is any
Unicode decimal digit. -/
def dayFieldOk (cs : List Char) : Bool :=
  match cs with
  | [a] => 49 ≤ a.toNat && a.toNat ≤ 57
  | [a, b] =>
    (a == '3' && (b == '0' || b == '1')) ||
    ((a == '1' || a == '2') && isPyDecimalDigit b) ||
    (a == '0' && (49 ≤ b.toNat && b.toNat ≤ 57))
  | _ => false

/-- The month field of `%d.%m.%Y`: CPython `_strptime`'s alternation
`1[0-2]|0[1-9]|[1-9]`, all of it ASCII. -/
def monthFieldOk (cs : List Char) : Bool :=
  match cs with
  | [a] => 49 ≤ a.toNat && a.toNat ≤ 57
  | [a, b] =>
    (a == '1' && (b == '0' || b == '1' || b == '2')) ||
    (a == '0' && (49 ≤ b.toNat && b.toNat ≤ 57))
  | _ => false

/-- The year field of `%d.%m.%Y`: `\d\d\d\d`, four Unicode decimal
digits. -/
def yearFieldOk (cs : List Char) : Bool :=
  cs.all isPyDecimalDigit && decide (cs.length = 4)

/-- Models `datetime.strptime(s, "%d.%m.%Y").date()`: `none` where the Python
call raises `ValueError`.  The three fields are matched against the
`_strptime` patterns, each group is converted with `int()` (`pyDigitsVal`),
and the `datetime(year, month, day)` constructor further requires `1 ≤ year`
and that the day exists in the month. -/
def parseBirthdayDate (s : String) : Option Date :=
  match splitDots s.data with
  | [dcs, mcs, ycs] =>
    if dayFieldOk dcs && monthFieldOk mcs && yearFieldOk ycs then
      if decide (1 ≤ pyDigitsVal ycs) &&
          decide (pyDigitsVal dcs ≤
            daysInMonth (pyDigitsVal mcs) (pyDigitsVal ycs)) then
        some ⟨pyDigitsVal ycs, pyDigitsVal mcs, pyDigitsVal dcs⟩
      else none
    else none
  | _ => none

/-- A `Phone` field object: object identity plus stored string value
(`Field` defines no `__eq__`, so Python compares such objects by identity). -/
structure Phone where
  oid : Nat
  value : String
deriving DecidableEq, Repr

/-- `Phone.validate_format`: `len(str(self.value)) == 10 and
str(self.value).isdigit()`. -/
def Phone.validate_format (p : Phone) : Bool :=
  p.value.length == 10 && pyIsDigit p.value

/-- A `Birthday` field object (only its value is ever compared or shown). -/
structure Birthday where
  value : String
deriving DecidableEq, Repr

/-- `Birthday.validate_format`: true iff `datetime.strptime(value,
"%d.%m.%Y")` does not raise. -/
def Birthday.validate_format (b : Birthday) : Bool :=
  (parseBirthdayDate b.value).isSome

/-- Python `==` on two `Phone` objects: identity, since `Field` defines no
`__eq__`. -/
def pyEqPhone (a b : Phone) : Bool :=
  a.oid == b.oid

/-- A `Record`: name value, ordered phone list, optional birthday. -/
structure Record where
  name : String
  phones : List Phone
  birthday : Option Birthday
deriving DecidableEq, Repr

/-- `Record.add_phone`: appends when the format is valid, else raises
(`none`).  The `isinstance(phone, Phone)` test always passes in this typed
embedding. -/
def Record.add_phone (r : Record) (p : Phone) : Option Record :=
  if p.validate_format then some ⟨r.name, r.phones ++ [p], r.birthday⟩
  else none

/-- `Record.add_birthday`: replaces the stored birthday when the format is
valid, else raises (`none`). -/
def Record.add_birthday (r : Record) (b : Birthday) : Option Record :=
  if b.validate_format then some ⟨r.name, r.phones, some b⟩
  else none

/-- `Record.remove_phone`: removes the first phone equal (by Python `==`,
i.e. identity) to the argument, else raises (`none`). -/
def Record.remove_phone (r : Record) (p : Phone) : Option Record :=
  if r.phones.any (fun q => pyEqPhone q p) then
    some ⟨r.name, r.phones.eraseP (fun q => pyEqPhone q p), r.birthday⟩
  else none

/-- `Record.edit_phone`: `self.phones.index(old_phone)` finds the first phone
equal (by Python `==`, i.e. identity) to `old`, and that slot is overwritten
with `new`; raises (`none`) when no stored phone is `old`. -/
def Record.edit_phone (r : Record) (old new : Phone) : Option Record :=
  match r.phones.findIdx? (fun q => pyEqPhone q old) with
  | some i => some ⟨r.name, r.phones.set i new, r.birthday⟩
  | none => none

/-- `Record.find_phone`: returns `str(phone)` of the argument when some
stored phone equals it (by identity), else raises (`none`). -/
def Record.find_phone (r : Record) (p : Phone) : Option String :=
  if r.phones.any (fun q => pyEqPhone q p) then some p.value
  else none

/-- `Record.__str__`: one summary line, phones joined with `"; "`, birthday
suffix only when a birthday is stored. -/
def Record.render (r : Record) : String :=
  "Contact name: " ++ r.name ++ ", phones: " ++
    String.intercalate "; " (r.phones.map Phone.value) ++
    (match r.birthday with
     | some b => ", Birthday: " ++ b.value
     | none => "")

/-- First value stored under `k` in a Python-dict entry list. -/
def dictLookup (k : String) : List (String × Record) → Option Record
  | [] => none
  | (k2, r) :: rest => if k2 == k then some r else dictLookup k rest

/-- Python dict assignment `d[k] = v`: replace in place when the key is
present (keeping its position, as CPython dicts do), else append. -/
def dictInsert (k : String) (v : Record) :
    List (String × Record) → List (String × Record)
  | [] => [(k, v)]
  | (k2, r) :: rest =>
    if k2 == k then (k2, v) :: rest else (k2, r) :: dictInsert k v rest

/-- Python dict deletion `del d[k]`: removes the entry with key `k`. -/
def dictErase (k : String) :
    List (String × Record) → List (String × Record)
  | [] => []
  | (k2, r) :: rest =>
    if k2 == k then rest else (k2, r) :: dictErase k rest

/-- `AddressBook(UserDict)`: the `data` dict from lowercased name to record,
as an insertion-ordered entry list with unique keys. -/
structure AddressBook where
  data : List (String × Record)
deriving DecidableEq, Repr

/-- `AddressBook.add_record`: stores the record under its lowercased name.
The `isinstance(record, Record)` test always passes in this typed
embedding. -/
def AddressBook.add_record (book : AddressBook) (r : Record) : AddressBook :=
  ⟨dictInsert (pyLower r.name) r book.data⟩

/-- `AddressBook.delete`: case-insensitive removal; raises (`none`) when the
lowercased name is absent. -/
def AddressBook.delete (book : AddressBook) (name : String) :
    Option AddressBook :=
  if (dictLookup (pyLower name) book.data).isSome then
    some ⟨dictErase (pyLower name) book.data⟩
  else none

/-- `AddressBook.find`: case-insensitive lookup; raises (`none`) when
absent. -/
def AddressBook.find (book : AddressBook) (name : String) : Option Record :=
  dictLookup (pyLower name) book.data

/-- The loop body of `get_birthdays_per_week` over the remaining entries:
appends `str(record)` for each record whose birthday parses to a date at most
`nextWeek`; `none` models the `ValueError` that `strptime` would raise on a
stored birthday string that does not parse (which aborts the whole call). -/
def birthdaysLoop (nextWeek : Date) :
    List (String × Record) → Option (List String)
  | [] => some []
  | (_, r) :: rest =>
    match r.birthday with
    | none => birthdaysLoop nextWeek rest
    | some b =>
      match parseBirthdayDate b.value with
      | none => none
      | some d =>
        if Date.le d nextWeek then
          (birthdaysLoop nextWeek rest).map (fun l => r.render :: l)
        else birthdaysLoop nextWeek rest

/-- `AddressBook.get_birthdays_per_week`, with `datetime.now().date()` passed
in as `today`: collects `str(record)` over the entries in insertion order for
each record with a birthday whose parsed date is at most `today` plus seven
days. -/
def AddressBook.get_birthdays_per_week (book : AddressBook) (today : Date) :
    Option (List String) :=
  birthdaysLoop (addDays 7 today) book.data

/-- Handler `add_contact` (wrapped by `input_error`), with the object
allocation counter `ctr` threaded through: a fresh `Phone` gets the next
identity.  Returns the printed string, the resulting book, and the counter. -/
def add_contact (args : List String) (book : AddressBook) (ctr : Nat) :
    String × AddressBook × Nat :=
  match args with
  | [name, phone] =>
    match Record.add_phone ⟨name, [], none⟩ ⟨ctr, phone⟩ with
    | some r => ("Contact added.", book.add_record r, ctr + 1)
    | none => ("Invalid input or contact not found.", book, ctr + 1)
  | _ => ("Enter valid input.", book, ctr)

/-- Handler `change_contact` (wrapped by `input_error`): requires exactly two
arguments, then runs `book.find(name).edit_phone(Phone(phone),
Phone(args[1]))` — both `Phone` objects are freshly allocated from the same
string `phone = args[1]`.  In-place mutation of the found record is modelled
by writing the updated record back at its key. -/
def change_contact (args : List String) (book : AddressBook) (ctr : Nat) :
    String × AddressBook × Nat :=
  match args with
  | [name, phone] =>
    match AddressBook.find book name with
    | none => ("Invalid input or contact not found.", book, ctr)
    | some r =>
      match Record.edit_phone r ⟨ctr, phone⟩ ⟨ctr + 1, phone⟩ with
      | some r2 =>
        ("Contact updated.", ⟨dictInsert (pyLower name) r2 book.data⟩, ctr + 2)
      | none => ("Invalid input or contact not found.", book, ctr + 2)
  | _ => ("Enter valid input.", book, ctr)

/-- Handler `show_phone` (wrapped by `input_error`): returns the found record,
which the REPL prints via `Record.__str__`. -/
def show_phone (args : List String) (book : AddressBook) :
    String × AddressBook :=
  match args with
  | [name] =>
    match AddressBook.find book name with
    | some r => (r.render, book)
    | none => ("Invalid input or contact not found.", book)
  | _ => ("Enter valid input.", book)

/-- Handler `add_birthday` (wrapped by `input_error`): finds the record and
sets its birthday in place; modelled by writing the updated record back. -/
def add_birthday (args : List String) (book : AddressBook) :
    String × AddressBook :=
  match args with
  | [name, bday] =>
    match AddressBook.find book name with
    | none => ("Invalid input or contact not found.", book)
    | some r =>
      match Record.add_birthday r ⟨bday⟩ with
      | some r2 => ("Birthday added to the contact.", ⟨dictInsert (pyLower name) r2 book.data⟩)
      | none => ("Invalid input or contact not found.", book)
  | _ => ("Enter valid input.", book)

/-- Handler `show_birthday` (wrapped by `input_error`): prints the stored
birthday value, or "Birthday not found." when the record has none. -/
def show_birthday (args : List String) (book : AddressBook) :
    String × AddressBook :=
  match args with
  | [name] =>
    match AddressBook.find book name with
    | none => ("Invalid input or contact not found.", book)
    | some r =>
      match r.birthday with
      | some b => (b.value, book)
      | none => ("Birthday not found.", book)
  | _ => ("Enter valid input.", book)

/-- Handler `birthdays` (not wrapped by `input_error`): joins the upcoming
summaries with newlines; `none` when `get_birthdays_per_week` raises. -/
def birthdays (book : AddressBook) (today : Date) : Option String :=
  match AddressBook.get_birthdays_per_week book today with
  | none => none
  | some [] => some "No upcoming birthdays in the next week."
  | some l => some (String.intercalate "\n" l)

/-- The module defines no function named `show_all`, although `main` calls
`show_all(book)` in its `all` branch: evaluating the name raises `NameError`
at run time.  This is recorded by an empty optional binding for the name. -/
def show_all? : Option (AddressBook → String) := none

/-- One iteration of `main`'s dispatch on an already-parsed command, with
`datetime.now().date()` passed in as `today`.  Returns the printed line and
the resulting book and allocation counter.  `close`/`exit` break the loop
before this chain and are not modelled; the message printed when a stored
birthday fails to parse inside `birthdays` abstracts the `ValueError` text
(that branch is unreachable for books built through the handlers). -/
def dispatch (cmd : String) (args : List String) (book : AddressBook)
    (ctr : Nat) (today : Date) : String × AddressBook × Nat :=
  if cmd == "hello" then ("How can I help you?", book, ctr)
  else if cmd == "add" then add_contact args book ctr
  else if cmd == "change" then change_contact args book ctr
  else if cmd == "phone" then
    ((show_phone args book).1, (show_phone args book).2, ctr)
  else if cmd == "all" then
    match show_all? with
    | some f => (f book, book, ctr)
    | none => ("Error: name 'show_all' is not defined. Please try again.", book, ctr)
  else if cmd == "add-birthday" then
    ((add_birthday args book).1, (add_birthday args book).2, ctr)
  else if cmd == "show-birthday" then
    ((show_birthday args book).1, (show_birthday args book).2, ctr)
  else if cmd == "birthdays" then
    match birthdays book today with
    | some s => (s, book, ctr)
    | none => ("Error: invalid stored birthday value. Please try again.", book, ctr)
  else ("Invalid command.", book, ctr)

/-- The phone-validation rule as the specification words it: length exactly
ten and every character an ASCII decimal digit `0`-`9`. -/
def asciiPhoneClaim (s : String) : Bool :=
  s.length == 10 && s.data.all isAsciiDigit

/-- The membership test of the upcoming-birthdays query, per entry: a
birthday is stored and its parsed date is at most `nextWeek`. -/
def birthdayDue (nextWeek : Date) (r : Record) : Bool :=
  match r.birthday with
  | none => false
  | some b =>
    match parseBirthdayDate b.value with
    | none => false
    | some d => Date.le d nextWeek

/-- The upcoming-birthdays result as the claim words it, over an entry list:
the renderings of exactly those records whose stored birthday is due, in
entry order. -/
def upcomingSpecList (nextWeek : Date) (l : List (String × Record)) :
    List String :=
  ((l.map Prod.snd).filter (birthdayDue nextWeek)).map Record.render

/-- The upcoming-birthdays result as the claim words it, for a book and a
current date. -/
def upcomingRenderings (book : AddressBook) (today : Date) : List String :=
  upcomingSpecList (addDays 7 today) book.data

/-- Whether the record's stored birthday string (when present) parses. -/
def recordBirthdayParses (r : Record) : Bool :=
  match r.birthday with
  | some b => (parseBirthdayDate b.value).isSome
  | none => true

/-- Whether every stored birthday string in the book parses (always true for
books built through the handlers, which validate before storing). -/
def allBirthdaysParse (book : AddressBook) : Bool :=
  book.data.all (fun kr => recordBirthdayParses kr.2)

/-- The key-normalization invariant over an entry list: every entry's record
name, lowercased, equals the key it is stored under. -/
def invList (l : List (String × Record)) : Prop :=
  ∀ kr ∈ l, pyLower kr.2.name = kr.1

/-- The key-normalization invariant of an address book. -/
def bookInv (book : AddressBook) : Prop :=
  invList book.data

/-- The directory operations a book can be driven with from outside. -/
inductive BookOp where
  | add (r : Record)
  | del (name : String)
  | find (name : String)
deriving DecidableEq, Repr

/-- Whether an operation only carries a non-empty record name. -/
def opNameOk : BookOp → Bool
  | .add r => r.name != ""
  | .del _ => true
  | .find _ => true

/-- Run one directory operation; a failed `delete` raises, leaving the book
unchanged, and `find` never mutates. -/
def applyOp (book : AddressBook) : BookOp → AddressBook
  | .add r => book.add_record r
  | .del n =>
    match book.delete n with
    | some b2 => b2
    | none => book
  | .find _ => book

/-- Run a sequence of directory operations. -/
def applyOps (ops : List BookOp) (book : AddressBook) : AddressBook :=
  ops.foldl applyOp book

theorem dictLookup_insert (k : String) (v : Record)
    (l : List (String × Record)) : dictLookup k (dictInsert k v l) = some v := by
  induction l with
  | nil => simp [dictInsert, dictLookup]
  | cons kr rest ih =>
    obtain ⟨k2, r⟩ := kr
    by_cases h : k2 = k
    · simp [dictInsert, dictLookup, h]
    · simp only [dictInsert, dictLookup, beq_iff_eq, if_neg h]
      exact ih

theorem dictInsert_length_of_lookup (k : String) (v r : Record)
    (l : List (String × Record)) (h : dictLookup k l = some r) :
    (dictInsert k v l).length = l.length := by
  induction l with
  | nil => simp [dictLookup] at h
  | cons kr rest ih =>
    obtain ⟨k2, r2⟩ := kr
    by_cases hk : k2 = k
    · simp [dictInsert, hk]
    · simp only [dictLookup, beq_iff_eq, if_neg hk] at h
      simp only [dictInsert, beq_iff_eq, if_neg hk, List.length_cons]
      exact congrArg (· + 1) (ih h)

theorem invList_insert (r : Record) (l : List (String × Record))
    (h : invList l) : invList (dictInsert (pyLower r.name) r l) := by
  induction l with
  | nil =>
    intro kr hm
    simp [dictInsert] at hm
    simp [hm]
  | cons kr2 rest ih =>
    obtain ⟨k2, r2⟩ := kr2
    have hhead : pyLower r2.name = k2 := h (k2, r2) (List.mem_cons_self _ _)
    have htail : invList rest := fun kr hm => h kr (List.mem_cons_of_mem _ hm)
    by_cases hk : k2 = pyLower r.name
    · intro kr hm
      simp only [dictInsert, beq_iff_eq, if_pos hk] at hm
      rcases List.mem_cons.mp hm with h1 | h2
      · simp [h1, hk]
      · exact h kr (List.mem_cons_of_mem _ h2)
    · intro kr hm
      simp only [dictInsert, beq_iff_eq, if_neg hk] at hm
      rcases List.mem_cons.mp hm with h1 | h2
      · simp [h1, hhead]
      · exact ih htail kr h2

theorem invList_erase (k : String) (l : List (String × Record))
    (h : invList l) : invList (dictErase k l) := by
  induction l with
  | nil => intro kr hm; simp [dictErase] at hm
  | cons kr2 rest ih =>
    obtain ⟨k2, r2⟩ := kr2
    have hhead : pyLower r2.name = k2 := h (k2, r2) (List.mem_cons_self _ _)
    have htail : invList rest := fun kr hm => h kr (List.mem_cons_of_mem _ hm)
    by_cases hk : k2 = k
    · intro kr hm
      simp only [dictErase, beq_iff_eq, if_pos hk] at hm
      exact htail kr hm
    · intro kr hm
      simp only [dictErase, beq_iff_eq, if_neg hk] at hm
      rcases List.mem_cons.mp hm with h1 | h2
      · simp [h1, hhead]
      · exact ih htail kr h2

theorem bookInv_applyOp (book : AddressBook) (op : BookOp)
    (h : bookInv book) : bookInv (applyOp book op) := by
  cases op with
  | add r => exact invList_insert r book.data h
  | del n =>
    simp only [applyOp, AddressBook.delete]
    split
    · next b2 heq =>
      split at heq
      · cases heq
        exact invList_erase (pyLower n) book.data h
      · cases heq
    · exact h
  | find n => exact h

theorem bookInv_applyOps (ops : List BookOp) (book : AddressBook)
    (h : bookInv book) : bookInv (applyOps ops book) := by
  induction ops generalizing book with
  | nil => exact h
  | cons op rest ih => exact ih (applyOp book op) (bookInv_applyOp book op h)

theorem birthdaysLoop_eq (nw : Date) (l : List (String × Record))
    (h : ∀ kr ∈ l, recordBirthdayParses kr.2 = true) :
    birthdaysLoop nw l = some (upcomingSpecList nw l) := by
  induction l with
  | nil => rfl
  | cons kr rest ih =>
    obtain ⟨k, r⟩ := kr
    have hr : recordBirthdayParses r = true := h (k, r) (List.mem_cons_self _ _)
    have htail : ∀ kr ∈ rest, recordBirthdayParses kr.2 = true :=
      fun kr hm => h kr (List.mem_cons_of_mem _ hm)
    rcases hb : r.birthday with _ | b
    · have hdue : birthdayDue nw r = false := by simp [birthdayDue, hb]
      simp only [birthdaysLoop, hb, upcomingSpecList, List.map_cons,
        List.filter_cons, hdue]
      exact ih htail
    · have hparse : (parseBirthdayDate b.value).isSome = true := by
        have := hr
        simpa [recordBirthdayParses, hb] using this
      obtain ⟨d, hd⟩ := Option.isSome_iff_exists.mp hparse
      by_cases hle : Date.le d nw
      · have hdue : birthdayDue nw r = true := by
          simp [birthdayDue, hb, hd, hle]
        simp only [birthdaysLoop, hb, hd, hle, if_true, ih htail,
          Option.map_some, upcomingSpecList, List.map_cons,
          List.filter_cons, hdue]
        rfl
      · have hdue : birthdayDue nw r = false := by
          simp [birthdayDue, hb, hd, hle]
        simp only [birthdaysLoop, hb, hd, hle, if_false, upcomingSpecList,
          List.map_cons, List.filter_cons, hdue]
        exact ih htail

/-- C4: for every book whose stored birthday strings parse and every current
date, the upcoming-birthdays query returns exactly the summary renderings of
those records that have a birthday whose stored value, parsed as a full
calendar date including the birth year, is at most `today` plus seven days —
records without a birthday excluded, in entry-insertion order. -/
theorem C4_upcoming_literal_window (book : AddressBook) (today : Date)
    (h : allBirthdaysParse book = true) :
    book.get_birthdays_per_week today = some (upcomingRenderings book today) := by
  unfold AddressBook.get_birthdays_per_week upcomingRenderings
  exact birthdaysLoop_eq (addDays 7 today) book.data
    (by simpa [allBirthdaysParse, List.all_eq_true] using h)

theorem C4_upcoming_literal_window_witness :
    allBirthdaysParse ⟨[("john", ⟨"John", [⟨0, "1234567890"⟩],
        some ⟨"15.08.1990"⟩⟩), ("ann", ⟨"Ann", [⟨1, "0987654321"⟩], none⟩)]⟩ =
      true ∧
    AddressBook.get_birthdays_per_week
      ⟨[("john", ⟨"John", [⟨0, "1234567890"⟩], some ⟨"15.08.1990"⟩⟩),
        ("ann", ⟨"Ann", [⟨1, "0987654321"⟩], none⟩)]⟩ ⟨2024, 1, 1⟩ =
      some (upcomingRenderings
        ⟨[("john", ⟨"John", [⟨0, "1234567890"⟩], some ⟨"15.08.1990"⟩⟩),
          ("ann", ⟨"Ann", [⟨1, "0987654321"⟩], none⟩)]⟩ ⟨2024, 1, 1⟩) :=
  ⟨by decide, C4_upcoming_literal_window
    ⟨[("john", ⟨"John", [⟨0, "1234567890"⟩], some ⟨"15.08.1990"⟩⟩),
      ("ann", ⟨"Ann", [⟨1, "0987654321"⟩], none⟩)]⟩ ⟨2024, 1, 1⟩ (by decide)⟩

/-- C1: the claim says the `all` command prints the rendering of every
record.  The source never defines `show_all`, so the `all` branch raises
`NameError`, which the top-level loop catches and reports; on a book holding
one record, the printed line is the error message and differs from the
record's rendering (so nothing of the book is rendered). -/
theorem C1_all_command_reports_name_error :
    dispatch "all" []
        ⟨[("john", ⟨"John", [⟨0, "1234567890"⟩], none⟩)]⟩ 1 ⟨2024, 1, 1⟩ =
      ("Error: name 'show_all' is not defined. Please try again.",
        ⟨[("john", ⟨"John", [⟨0, "1234567890"⟩], none⟩)]⟩, 1) ∧
    "Error: name 'show_all' is not defined. Please try again." ≠
      Record.render ⟨"John", [⟨0, "1234567890"⟩], none⟩ := by
  constructor
  · rfl
  · decide

/-- C2: the claim says that on a book holding John with phone 1234567890,
the change handler called with the three arguments John, 1234567890,
0987654321 returns "Contact updated.".  The code checks `len(args) != 2`
and raises `IndexError` on three arguments, printing "Enter valid input.";
and even on the two arguments John, 1234567890 it prints "Invalid input or
contact not found.", because the freshly constructed `Phone` object is
compared with the stored one by object identity.  Neither call touches the
book. -/
theorem C2_change_handler_rejects :
    change_contact ["John", "1234567890", "0987654321"]
        ⟨[("john", ⟨"John", [⟨0, "1234567890"⟩], none⟩)]⟩ 1 =
      ("Enter valid input.",
        ⟨[("john", ⟨"John", [⟨0, "1234567890"⟩], none⟩)]⟩, 1) ∧
    change_contact ["John", "1234567890"]
        ⟨[("john", ⟨"John", [⟨0, "1234567890"⟩], none⟩)]⟩ 1 =
      ("Invalid input or contact not found.",
        ⟨[("john", ⟨"John", [⟨0, "1234567890"⟩], none⟩)]⟩, 3) := by
  constructor
  · rfl
  · rfl

/-- C3: the claim says `edit_phone(old, new)` locates the stored phone whose
digit string equals that of `old` and replaces it.  On a record storing a
phone whose value is the same digit string "1234567890" as `old`'s, the call
nevertheless raises the not-found error (`none`), because `old_phone in
self.phones` compares `Phone` objects with Python `==`, which `Field` leaves
at object identity. -/
theorem C3_edit_phone_misses_equal_value :
    Record.edit_phone ⟨"John", [⟨0, "1234567890"⟩], none⟩
        ⟨1, "1234567890"⟩ ⟨2, "0987654321"⟩ = none ∧
    (Phone.mk 1 "1234567890").value = (Phone.mk 0 "1234567890").value := by
  constructor
  · rfl
  · rfl

/-- C7: starting from the empty book, any sequence of `add_record`, `delete`
and `find` operations whose records carry non-empty names leaves every
stored entry's record name, lowercased, equal to the key it is stored
under. -/
theorem C7_key_normalization_invariant (ops : List BookOp)
    (h : ∀ op ∈ ops, opNameOk op = true) : bookInv (applyOps ops ⟨[]⟩) :=
  bookInv_applyOps ops ⟨[]⟩ (fun kr hm => absurd hm (List.not_mem_nil kr))

theorem C7_key_normalization_invariant_witness :
    (∀ op ∈ [BookOp.add ⟨"John", [], none⟩, BookOp.del "Ann",
        BookOp.find "JOHN"], opNameOk op = true) ∧
    bookInv (applyOps [BookOp.add ⟨"John", [], none⟩, BookOp.del "Ann",
        BookOp.find "JOHN"] ⟨[]⟩) := by
  exact ⟨by decide, C7_key_normalization_invariant
    [BookOp.add ⟨"John", [], none⟩, BookOp.del "Ann", BookOp.find "JOHN"]
    (by decide)⟩

/-- C8: after `add_record r`, calling `find` with any string that lowercases
to the same key as `r`'s name returns exactly `r`. -/
theorem C8_find_any_case_variant (book : AddressBook) (r : Record)
    (s : String) (h : pyLower s = pyLower r.name) :
    (book.add_record r).find s = some r := by
  unfold AddressBook.find AddressBook.add_record
  rw [h]
  exact dictLookup_insert (pyLower r.name) r book.data

theorem C8_find_any_case_variant_witness :
    pyLower "JOHN" = pyLower "John" ∧
    (AddressBook.find
      (AddressBook.add_record ⟨[]⟩ ⟨"John", [], none⟩) "JOHN" =
        some ⟨"John", [], none⟩) :=
  ⟨by decide, C8_find_any_case_variant ⟨[]⟩ ⟨"John", [], none⟩ "JOHN"
    (by decide)⟩

/-- C10: invoking the add handler with a name whose lowercasing already keys
an entry and a format-valid phone reports success and stores a brand-new
record holding only that phone and no birthday over the old entry; the
previous record's phones and birthday are gone, and no new entry is added
(the entry count is unchanged). -/
theorem C10_add_overwrites_existing (book : AddressBook) (ctr : Nat)
    (n p : String) (r0 : Record) (h1 : book.find n = some r0)
    (h2 : Phone.validate_format ⟨ctr, p⟩ = true) :
    (add_contact [n, p] book ctr).1 = "Contact added." ∧
    AddressBook.find (add_contact [n, p] book ctr).2.1 n =
      some ⟨n, [⟨ctr, p⟩], none⟩ ∧
    (add_contact [n, p] book ctr).2.1.data.length = book.data.length := by
  have hrec : Record.add_phone ⟨n, [], none⟩ ⟨ctr, p⟩ =
      some ⟨n, [⟨ctr, p⟩], none⟩ := by
    unfold Record.add_phone
    rw [h2]
    rfl
  have hstep : add_contact [n, p] book ctr =
      ("Contact added.", book.add_record ⟨n, [⟨ctr, p⟩], none⟩, ctr + 1) := by
    show (match Record.add_phone ⟨n, [], none⟩ ⟨ctr, p⟩ with
      | some r => ("Contact added.", book.add_record r, ctr + 1)
      | none => ("Invalid input or contact not found.", book, ctr + 1)) =
        ("Contact added.", book.add_record ⟨n, [⟨ctr, p⟩], none⟩, ctr + 1)
    rw [hrec]
  rw [hstep]
  refine ⟨rfl, ?_, ?_⟩
  · show AddressBook.find (AddressBook.add_record book ⟨n, [⟨ctr, p⟩], none⟩) n =
      some ⟨n, [⟨ctr, p⟩], none⟩
    unfold AddressBook.find AddressBook.add_record
    exact dictLookup_insert (pyLower n) _ book.data
  · show (dictInsert (pyLower n) ⟨n, [⟨ctr, p⟩], none⟩ book.data).length =
      book.data.length
    exact dictInsert_length_of_lookup (pyLower n) _ r0 book.data h1

/-- C9: on failure nothing is mutated.  The record and directory operations
are functional here (failure returns `none` and produces no state), so the
content of the claim lives in the handlers, which thread the book: a handler
that does not report its success message returns the book it was given, and
the read-only handlers return it unconditionally. -/
theorem C9_failure_preserves_book :
    (∀ args book ctr, (add_contact args book ctr).1 ≠ "Contact added." →
      (add_contact args book ctr).2.1 = book) ∧
    (∀ args book ctr, (change_contact args book ctr).1 ≠ "Contact updated." →
      (change_contact args book ctr).2.1 = book) ∧
    (∀ args book,
      (add_birthday args book).1 ≠ "Birthday added to the contact." →
      (add_birthday args book).2 = book) ∧
    (∀ args book, (show_phone args book).2 = book) ∧
    (∀ args book, (show_birthday args book).2 = book) := by
  refine ⟨?_, ?_, ?_, ?_, ?_⟩
  · intro args book ctr h
    rcases args with _ | ⟨a, _ | ⟨b, _ | ⟨c, t⟩⟩⟩
    · rfl
    · rfl
    · rcases hr : Record.add_phone ⟨a, [], none⟩ ⟨ctr, b⟩ with _ | r
      · show (match Record.add_phone ⟨a, [], none⟩ ⟨ctr, b⟩ with
          | some r => ("Contact added.", book.add_record r, ctr + 1)
          | none => ("Invalid input or contact not found.", book,
              ctr + 1)).2.1 = book
        rw [hr]
      · exfalso
        apply h
        show (match Record.add_phone ⟨a, [], none⟩ ⟨ctr, b⟩ with
          | some r => ("Contact added.", book.add_record r, ctr + 1)
          | none => ("Invalid input or contact not found.", book,
              ctr + 1)).1 = "Contact added."
        rw [hr]
    · rfl
  · intro args book ctr h
    rcases args with _ | ⟨a, _ | ⟨b, _ | ⟨c, t⟩⟩⟩
    · rfl
    · rfl
    · rcases hf : AddressBook.find book a with _ | r
      · show (match AddressBook.find book a with
          | none => ("Invalid input or contact not found.", book, ctr)
          | some r =>
            match Record.edit_phone r ⟨ctr, b⟩ ⟨ctr + 1, b⟩ with
            | some r2 => ("Contact updated.",
                ⟨dictInsert (pyLower a) r2 book.data⟩, ctr + 2)
            | none => ("Invalid input or contact not found.", book,
                ctr + 2)).2.1 = book
        rw [hf]
      · rcases he : Record.edit_phone r ⟨ctr, b⟩ ⟨ctr + 1, b⟩ with _ | r2
        · show (match AddressBook.find book a with
            | none => ("Invalid input or contact not found.", book, ctr)
            | some r =>
              match Record.edit_phone r ⟨ctr, b⟩ ⟨ctr + 1, b⟩ with
              | some r2 => ("Contact updated.",
                  ⟨dictInsert (pyLower a) r2 book.data⟩, ctr + 2)
              | none => ("Invalid input or contact not found.", book,
                  ctr + 2)).2.1 = book
          rw [hf]
          show (match Record.edit_phone r ⟨ctr, b⟩ ⟨ctr + 1, b⟩ with
            | some r2 => ("Contact updated.",
                (⟨dictInsert (pyLower a) r2 book.data⟩ : AddressBook),
                ctr + 2)
            | none => ("Invalid input or contact not found.", book,
                ctr + 2)).2.1 = book
          rw [he]
        · exfalso
          apply h
          show (match AddressBook.find book a with
            | none => ("Invalid input or contact not found.", book, ctr)
            | some r =>
              match Record.edit_phone r ⟨ctr, b⟩ ⟨ctr + 1, b⟩ with
              | some r2 => ("Contact updated.",
                  ⟨dictInsert (pyLower a) r2 book.data⟩, ctr + 2)
              | none => ("Invalid input or contact not found.", book,
                  ctr + 2)).1 = "Contact updated."
          rw [hf]
          show (match Record.edit_phone r ⟨ctr, b⟩ ⟨ctr + 1, b⟩ with
            | some r2 => ("Contact updated.",
                (⟨dictInsert (pyLower a) r2 book.data⟩ : AddressBook),
                ctr + 2)
            | none => ("Invalid input or contact not found.", book,
                ctr + 2)).1 = "Contact updated."
          rw [he]
    · rfl
  · intro args book h
    rcases args with _ | ⟨a, _ | ⟨b, _ | ⟨c, t⟩⟩⟩
    · rfl
    · rfl
    · rcases hf : AddressBook.find book a with _ | r
      · show (match AddressBook.find book a with
          | none => ("Invalid input or contact not found.", book)
          | some r =>
            match Record.add_birthday r ⟨b⟩ with
            | some r2 => ("Birthday added to the contact.",
                ⟨dictInsert (pyLower a) r2 book.data⟩)
            | none => ("Invalid input or contact not found.", book)).2 = book
        rw [hf]
      · rcases ha : Record.add_birthday r ⟨b⟩ with _ | r2
        · show (match AddressBook.find book a with
            | none => ("Invalid input or contact not found.", book)
            | some r =>
              match Record.add_birthday r ⟨b⟩ with
              | some r2 => ("Birthday added to the contact.",
                  ⟨dictInsert (pyLower a) r2 book.data⟩)
              | none => ("Invalid input or contact not found.", book)).2 =
            book
          rw [hf]
          show (match Record.add_birthday r ⟨b⟩ with
            | some r2 => ("Birthday added to the contact.",
                (⟨dictInsert (pyLower a) r2 book.data⟩ : AddressBook))
            | none => ("Invalid input or contact not found.", book)).2 =
            book
          rw [ha]
        · exfalso
          apply h
          show (match AddressBook.find book a with
            | none => ("Invalid input or contact not found.", book)
            | some r =>
              match Record.add_birthday r ⟨b⟩ with
              | some r2 => ("Birthday added to the contact.",
                  ⟨dictInsert (pyLower a) r2 book.data⟩)
              | none => ("Invalid input or contact not found.", book)).1 =
            "Birthday added to the contact."
          rw [hf]
          show (match Record.add_birthday r ⟨b⟩ with
            | some r2 => ("Birthday added to the contact.",
                (⟨dictInsert (pyLower a) r2 book.data⟩ : AddressBook))
            | none => ("Invalid input or contact not found.", book)).1 =
            "Birthday added to the contact."
          rw [ha]
    · rfl
  · intro args book
    rcases args with _ | ⟨a, _ | ⟨b, t⟩⟩
    · rfl
    · rcases hf : AddressBook.find book a with _ | r <;>
        simp [show_phone, hf]
    · rfl
  · intro args book
    rcases args with _ | ⟨a, _ | ⟨b, t⟩⟩
    · rfl
    · rcases hf : AddressBook.find book a with _ | r
      · simp [show_birthday, hf]
      · rcases hb : r.birthday with _ | bd <;> simp [show_birthday, hf, hb]
    · rfl

theorem C9_failure_preserves_book_witness :
    (add_contact ["OnlyName"] ⟨[]⟩ 0).1 ≠ "Contact added." ∧
    (add_contact ["OnlyName"] ⟨[]⟩ 0).2.1 = (⟨[]⟩ : AddressBook) := by
  refine ⟨by decide, ?_⟩
  exact C9_failure_preserves_book.1 ["OnlyName"] ⟨[]⟩ 0 (by decide)

theorem C10_add_overwrites_existing_witness :
    (AddressBook.find ⟨[("john", ⟨"John", [⟨0, "1111111111"⟩],
        some ⟨"15.08.1990"⟩⟩)]⟩ "JOHN" =
      some ⟨"John", [⟨0, "1111111111"⟩], some ⟨"15.08.1990"⟩⟩) ∧
    Phone.validate_format ⟨7, "1234567890"⟩ = true ∧
    AddressBook.find (add_contact ["JOHN", "1234567890"]
        ⟨[("john", ⟨"John", [⟨0, "1111111111"⟩], some ⟨"15.08.1990"⟩⟩)]⟩
        7).2.1 "JOHN" = some ⟨"JOHN", [⟨7, "1234567890"⟩], none⟩ := by
  refine ⟨by decide, by decide, ?_⟩
  exact (C10_add_overwrites_existing
    ⟨[("john", ⟨"John", [⟨0, "1111111111"⟩], some ⟨"15.08.1990"⟩⟩)]⟩ 7
    "JOHN" "1234567890" ⟨"John", [⟨0, "1111111111"⟩], some ⟨"15.08.1990"⟩⟩
    (by decide) (by decide)).2.1

/-- C5 counterexample: the claim says phone validation returns false for
every string that is not ten ASCII digits, including strings containing
non-ASCII digit characters.  But Python `str.isdigit` accepts the superscript
digit two, so the ten-character string starting with it passes the code's
validation while failing the claim's ASCII-only rule. -/
theorem C5_nonascii_digits_accepted :
    Phone.validate_format ⟨0, "²234567890"⟩ = true ∧
    asciiPhoneClaim "²234567890" = false := by
  constructor
  · decide
  · decide

/-- C5 amended: phone validation returns true iff the raw string has length
exactly ten and every character is a digit in Python's `str.isdigit` sense;
every ten-character ASCII-digit string therefore passes, but so do some
strings holding non-ASCII digit characters. -/
theorem C5_amended_length_and_pydigits :
    (∀ p : Phone, asciiPhoneClaim p.value = true →
      Phone.validate_format p = true) ∧
    (∀ p : Phone, Phone.validate_format p = true ↔
      (p.value.length = 10 ∧ ∀ c ∈ p.value.data, pyIsDigitChar c = true)) := by
  have hne : ∀ s : String, s.length = 10 → s.data.isEmpty = false := by
    intro s hlen
    have hlen2 : s.data.length = 10 := hlen
    cases hd : s.data with
    | nil => rw [hd] at hlen2; simp at hlen2
    | cons a l => rfl
  constructor
  · intro p h
    simp only [asciiPhoneClaim, Bool.and_eq_true, beq_iff_eq,
      List.all_eq_true] at h
    obtain ⟨hlen, hall⟩ := h
    simp only [Phone.validate_format, pyIsDigit, Bool.and_eq_true, beq_iff_eq,
      List.all_eq_true]
    refine ⟨hlen, ?_, ?_⟩
    · rw [hne p.value hlen]
      rfl
    · intro c hc
      simp [pyIsDigitChar, hall c hc]
  · intro p
    simp only [Phone.validate_format, pyIsDigit, Bool.and_eq_true, beq_iff_eq,
      List.all_eq_true]
    constructor
    · intro h
      exact ⟨h.1, h.2.2⟩
    · intro h
      refine ⟨h.1, ?_, h.2⟩
      rw [hne p.value h.1]
      rfl

theorem C5_amended_length_and_pydigits_witness :
    asciiPhoneClaim "1234567890" = true ∧
    Phone.validate_format ⟨0, "1234567890"⟩ = true :=
  ⟨by decide, C5_amended_length_and_pydigits.1 ⟨0, "1234567890"⟩ (by decide)⟩

end HW3
